import Mathlib

/-!
# Verification of the CloudTrail console-actions event filter

A shallow embedding of `main.go` of `cloudtrail-console-actions`: a Lambda
that fetches a CloudTrail log object from S3, parses its records, classifies
each record as suppress/notify via an ordered rule chain (`FilterRecords`),
emits a structured log entry for records that survive the filter, and
optionally delivers a Slack notification.

Records are decoded Go `map[string]interface{}` values; we model them as
association lists over a JSON value type.  Go string-library functions used
by the source (`strings.HasPrefix`, `strings.HasSuffix`, `strings.Contains`,
`strings.Split`, `strings.Title`, `regexp.MatchString`) are modelled at the
character-list level so that everything evaluates by kernel reduction.
The model is ASCII-faithful: Go's unicode classification functions are
modelled by their ASCII behaviour, which coincides with Go on every string
appearing in the source and in the inputs used below.
-/

namespace CloudTrail

/-- A decoded JSON value, as produced by Go's `encoding/json` unmarshalling
into `interface{}`.  JSON numbers are modelled as integers (no claim touches
a numeric field).  A JSON `null` unmarshals to a nil Go interface, which we
keep as an explicit constructor. -/
inductive JVal where
  | null : JVal
  | bool : Bool → JVal
  | num : Int → JVal
  | str : String → JVal
  | arr : List JVal → JVal
  | obj : List (String × JVal) → JVal

/-- A decoded JSON object / Go `map[string]interface{}` (keys assumed unique,
as produced by JSON unmarshalling). -/
abbrev JObj := List (String × JVal)

/-- Go map indexing `m[k]`: the value if present.  An absent key yields the
zero value (nil interface), which we model as `none`. -/
def jlookup : JObj → String → Option JVal
  | [], _ => none
  | (k, v) :: rest, key => if k == key then some v else jlookup rest key

/-- Go two-value type assertion `x.(map[string]interface{})`: the map when
the dynamic type matches, the nil map (over which every lookup yields the
nil interface) otherwise.  `asObj (jlookup r k)` models
`m, _ := r[k].(map[string]interface{})`. -/
def asObj : Option JVal → JObj
  | some (JVal.obj fields) => fields
  | _ => []

/-- Go interface comparison `v == "lit"` where `v : interface{}` came from
JSON: true exactly when `v` holds the string `s`.  (Comparison of a string
literal with a nil interface or with another dynamic type is `false` and
does not panic, since the types differ.) -/
def jvalIsStr (v : Option JVal) (s : String) : Bool :=
  match v with
  | some (JVal.str t) => t == s
  | _ => false

/-- Go test `v != nil` on an interface from JSON: absent keys and JSON
`null` are nil; everything else is non-nil. -/
def jIsNonNil (v : Option JVal) : Bool :=
  match v with
  | none => false
  | some JVal.null => false
  | some _ => true

/-- Go `fmt.Sprintf("%s", v)` on an `interface{}` decoded from JSON.
Scalar and nil cases follow Go's verb-mismatch rendering exactly; composite
values (slices/maps), which Go renders recursively and which no field of
interest ever holds, are modelled opaquely. -/
def goFmtS : JVal → String
  | JVal.null => "%!s(<nil>)"
  | JVal.str s => s
  | JVal.bool b => "%!s(bool=" ++ (if b then "true" else "false") ++ ")"
  | JVal.num n => "%!s(float64=" ++ toString n ++ ")"
  | JVal.arr _ => "[slice]"
  | JVal.obj _ => "map[object]"

/-- `fmt.Sprintf("%s", m[k])` including the absent-key (nil interface)
case. -/
def goFmtSOpt : Option JVal → String
  | none => "%!s(<nil>)"
  | some v => goFmtS v

/-! ## Go string-library model (character-list level) -/

/-- Whether `pre` is an initial segment of `s`. -/
def startsL : List Char → List Char → Bool
  | [], _ => true
  | _ :: _, [] => false
  | a :: ps, b :: ss => a == b && startsL ps ss

/-- Whether `sub` occurs as a contiguous segment of `s` (Go
`strings.Contains s sub`). -/
def containsL (sub : List Char) : List Char → Bool
  | [] => startsL sub []
  | c :: t => startsL sub (c :: t) || containsL sub t

/-- Go `strings.HasPrefix s pre`. -/
def goHasPre (s pre : String) : Bool := startsL pre.data s.data

/-- Go `strings.HasSuffix s suf`. -/
def goHasSuf (s suf : String) : Bool := startsL suf.data.reverse s.data.reverse

/-- Go `strings.Contains s sub`. -/
def goContains (s sub : String) : Bool := containsL sub.data s.data

/-- Go `strings.Split s ":"`: the colon-separated fields of `s`, in order
(always at least one field). -/
def splitCols : List Char → List (List Char)
  | [] => [[]]
  | c :: cs =>
    if c == ':' then [] :: splitCols cs
    else
      match splitCols cs with
      | [] => [[c]]
      | x :: xs => (c :: x) :: xs

/-- Go `strings.isSeparator`, ASCII-faithful: ASCII alphanumerics and
underscore are not separators; other ASCII characters are.  (For non-ASCII
runes Go consults unicode classes; we use Lean's ASCII classifiers, which
agree on every input exercised here.) -/
def goIsSeparator (c : Char) : Bool :=
  if c.toNat ≤ 127 then !(c.isDigit || c.isLower || c.isUpper || c == '_')
  else if c.isAlpha || c.isDigit then false
  else c.isWhitespace

/-- Go `unicode.ToTitle`, ASCII model (title case = upper case). -/
def goToTitle (c : Char) : Char := c.toUpper

/-- The mapping underlying Go `strings.Title`: title-case a character when
the previous original character is a separator (the imaginary character
before the first one is a space). -/
def goTitleAux (prev : Char) : List Char → List Char
  | [] => []
  | c :: cs => (if goIsSeparator prev then goToTitle c else c) :: goTitleAux c cs

/-- Go `strings.Title`. -/
def goTitle (s : String) : String := String.mk (goTitleAux ' ' s.data)

/-! ## Regular-expression model

The source calls `regexp.MatchString` on three patterns built only from
literal characters, `.` (any character except newline) and `*` (zero or
more of the preceding single-character element), with no anchors.  We model
exactly this fragment: a pattern parses to a token list and matching is an
unanchored substring search, as in Go. -/

/-- One parsed regex element: a literal, the any-character dot, or a starred
single-character element. -/
inductive RTok where
  | lit : Char → RTok
  | dot : RTok
  | star : RTok → RTok

/-- Whether a single non-star element matches one character. -/
def tokOne : RTok → Char → Bool
  | RTok.lit c, d => c == d
  | RTok.dot, d => d != '\n'
  | RTok.star _, _ => false

/-- Matching loop for a starred element `t` followed by a continuation `k`:
try the continuation at every suffix reachable by consuming `t`-matching
characters. -/
def starLoop (t : RTok) (k : List Char → Bool) : List Char → Bool
  | [] => k []
  | d :: ds => k (d :: ds) || (tokOne t d && starLoop t k ds)

/-- Whether the token list matches some initial segment of the input
(remaining input is unconstrained — Go regexes are unanchored). -/
def reMatch : List RTok → List Char → Bool
  | [], _ => true
  | RTok.lit _ :: _, [] => false
  | RTok.lit c :: ts, d :: ds => c == d && reMatch ts ds
  | RTok.dot :: _, [] => false
  | RTok.dot :: ts, d :: ds => d != '\n' && reMatch ts ds
  | RTok.star t :: ts, ds => starLoop t (reMatch ts) ds

/-- Unanchored search: the token list matches starting at some position. -/
def reSearch (ts : List RTok) : List Char → Bool
  | [] => reMatch ts []
  | c :: cs => reMatch ts (c :: cs) || reSearch ts cs

/-- Parse a pattern of the fragment (literals, `.`, postfix `*`). -/
def parseRe : List Char → List RTok
  | [] => []
  | c :: '*' :: rest =>
    RTok.star (if c == '.' then RTok.dot else RTok.lit c) :: parseRe rest
  | c :: rest => (if c == '.' then RTok.dot else RTok.lit c) :: parseRe rest

/-- Source `matchString(m, s)`: `regexp.MatchString` with the error
discarded (none of the three source patterns is malformed). -/
def matchString (m s : String) : Bool := reSearch (parseRe m.data) s.data

/-! ## The classification engine (`FilterRecords`) -/

/-- The S3 event record metadata the filter consumes
(`evt.S3.Bucket.Name`, `evt.S3.Object.Key`, `evt.AWSRegion`). -/
structure S3Meta where
  bucketName : String
  objectKey : String
  awsRegion : String

/-- The structured log entry emitted by `log.WithFields(...).Info("Event")`
for a record that survives the filter.  Raw-map fields keep their Go
interface values (`none` = absent). -/
structure LogEntry where
  user_agent : Option JVal
  event_time : Option JVal
  principal : Option JVal
  user_name : String
  event_source : Option JVal
  event_name : Option JVal
  account_id : Option JVal
  event_id : Option JVal
  s3_uri : String

/-- Identity normalization (source lines 187–193): start from
`fmt.Sprintf("%s", userIdentity["principalId"])`; if it contains a colon,
replace it by `strings.Split(name, ":")[1]`; an explicit non-nil
`userIdentity["userName"]` overrides everything. -/
def actorName (uid : JObj) : String :=
  let n0 := goFmtSOpt (jlookup uid "principalId")
  let n1 := if n0.data.contains ':' then String.mk ((splitCols n0.data).getD 1 []) else n0
  if jIsNonNil (jlookup uid "userName") then goFmtSOpt (jlookup uid "userName") else n1

/-- The structured log entry for one record (source lines 195–205). -/
def mkEntry (evt : S3Meta) (record uid : JObj) : LogEntry :=
  { user_agent := jlookup record "userAgent"
    event_time := jlookup record "eventTime"
    principal := jlookup uid "principalId"
    user_name := actorName uid
    event_source := jlookup record "eventSource"
    event_name := jlookup record "eventName"
    account_id := jlookup uid "accountId"
    event_id := jlookup record "eventID"
    s3_uri := "s3://" ++ evt.bucketName ++ "/" ++ evt.objectKey }

/-- `PutObject` sub-predicate (source lines 131–141): suppress when
`requestParameters.key` is a string with the classic ELB access-log
path prefix. -/
def putObjectElbKey (record : JObj) : Bool :=
  match jlookup record "requestParameters" with
  | some (JVal.obj rps) =>
    match jlookup rps "key" with
    | some (JVal.str k) => goHasPre k "elb/AWSLogs"
    | _ => false
  | _ => false

/-- `AssumeRole` sub-predicate (source lines 143–153): suppress when the
user agent is the internal SDK signature and the invoker is one of four
trusted service principals. -/
def assumeRoleTrusted (record uid : JObj) : Bool :=
  jvalIsStr (jlookup record "userAgent") "Coral/Netty4" &&
    (jvalIsStr (jlookup uid "invokedBy") "ecs-tasks.amazonaws.com" ||
     jvalIsStr (jlookup uid "invokedBy") "ec2.amazonaws.com" ||
     jvalIsStr (jlookup uid "invokedBy") "monitoring.rds.amazonaws.com" ||
     jvalIsStr (jlookup uid "invokedBy") "lambda.amazonaws.com")

/-- Stage B: the event-name `switch` (source lines 60–154), in source order,
first match wins; `true` means the matched case executed `continue`
(suppress), `false` means control falls through to the user-agent check. -/
def stageB (record uid : JObj) (en : String) : Bool :=
  if goHasPre (goTitle en) "Get" then true
  else if goHasPre (goTitle en) "List" then true
  else if goHasPre (goTitle en) "View" then true
  else if goHasPre en "Head" then true
  else if goHasPre en "Describe" then true
  else if goHasPre en "Test" then true
  else if goHasPre en "Download" then true
  else if goHasPre en "Report" then true
  else if goHasPre en "Poll" then true
  else if goHasPre en "Verify" then true
  else if goHasPre en "Skip" then true
  else if goHasPre en "Count" then true
  else if goHasPre en "Detect" then true
  else if goHasPre en "Lookup" then true
  else if en == "ConsoleLogin" then true
  else if goHasSuf en "VirtualMFADevice" then true
  else if en == "CheckMfa" then true
  else if en == "CheckDomainAvailability" then true
  else if en == "Decrypt" then true
  else if en == "SetTaskStatus" then true
  else if en == "BatchGetQueryExecution" then true
  else if en == "QueryObjects" then true
  else if goHasPre en "StartQuery" then true
  else if goHasPre en "StopQuery" then true
  else if goHasPre en "CancelQuery" then true
  else if goHasPre en "BatchGet" then true
  else if goHasPre en "Search" then true
  else if en == "GenerateServiceLastAccessedDetails" then true
  else if en == "REST.GET.OBJECT_LOCK_CONFIGURATION" then true
  else if en == "AssumeRoleWithWebIdentity" then true
  else if en == "PutQueryDefinition" then
    jvalIsStr (jlookup record "eventSource") "logs.amazonaws.com"
  else if en == "PutObject" then putObjectElbKey record
  else if en == "AssumeRole" then assumeRoleTrusted record uid
  else false

/-- Stage C allow-list body (source lines 157–184): does a present string
user agent hit one of the `break` cases (i.e. escape suppression)? -/
def userAgentAllowed (ua : String) : Bool :=
  if ua == "console.amazonaws.com" then true
  else if ua == "signin.amazonaws.com" then true
  else if ua == "Coral/Jakarta" then true
  else if ua == "Coral/Netty4" then true
  else if ua == "AWS CloudWatch Console" then true
  else if goHasPre ua "AWS Signin" then true
  else if goHasPre ua "S3Console/" then true
  else if goHasPre ua "[S3Console" then true
  else if goHasPre ua "Mozilla/" then true
  else if matchString "console.*.amazonaws.com" ua then true
  else if matchString "signin.*.amazonaws.com" ua then true
  else if matchString "aws-internal*" ua then true
  else false

/-- Stage C (source lines 156–185): `none` models a Go panic (the
single-value assertion `usa.(string)` on a present non-string value);
`some true` means proceed to the log/notify tail, `some false` means the
`default: continue` branch (suppress).  An absent `userAgent` skips the
whole block and proceeds. -/
def stageC (record : JObj) : Option Bool :=
  match jlookup record "userAgent" with
  | none => some true
  | some (JVal.str ua) => some (userAgentAllowed ua)
  | some _ => none

/-- Outcome of processing one record of the log file. -/
inductive RecordOutcome where
  | crash : RecordOutcome
  | suppressed : RecordOutcome
  | notified : LogEntry → RecordOutcome

/-- What happens after Stage B declines to suppress: the user-agent check,
then the structured log entry (and notification attempt). -/
def stageCOutcome (evt : S3Meta) (record uid : JObj) : RecordOutcome :=
  match stageC record with
  | none => RecordOutcome.crash
  | some false => RecordOutcome.suppressed
  | some true => RecordOutcome.notified (mkEntry evt record uid)

/-- One iteration of the `FilterRecords` loop (source lines 53–257).
Stage A: `userIdentity["invokedBy"] == "AWS Internal"` suppresses before
anything else.  Then `record["eventName"].(string)` — a single-value type
assertion that panics (`crash`) on an absent or non-string value.  Then the
Stage B switch, then the Stage C user-agent check, then the log entry. -/
def processRecord (evt : S3Meta) (record : JObj) : RecordOutcome :=
  if jvalIsStr (jlookup (asObj (jlookup record "userIdentity")) "invokedBy") "AWS Internal" then
    RecordOutcome.suppressed
  else
    match jlookup record "eventName" with
    | some (JVal.str en) =>
      if stageB record (asObj (jlookup record "userIdentity")) en then
        RecordOutcome.suppressed
      else stageCOutcome evt record (asObj (jlookup record "userIdentity"))
    | _ => RecordOutcome.crash

/-- Observable effects of one `FilterRecords` / `Stream` call: how many
records the loop iterated, the structured log entries in emission order, and
the notification payload entries (delivered only when the `SLACK_WEBHOOK`
environment variable is set, modelled by `slackEnabled`). -/
structure StreamEffects where
  recordsProcessed : Nat
  entries : List LogEntry
  notifications : List LogEntry

/-- `FilterRecords` over the parsed record list.  A Go panic aborts the
whole batch; we surface it as `Except.error ()` (the function itself only
ever returns a nil error). -/
def FilterRecords (slackEnabled : Bool) (evt : S3Meta) : List JObj → Except Unit StreamEffects
  | [] => Except.ok ⟨0, [], []⟩
  | r :: rs =>
    match processRecord evt r with
    | RecordOutcome.crash => Except.error ()
    | RecordOutcome.suppressed =>
      (FilterRecords slackEnabled evt rs).map fun e =>
        ⟨e.recordsProcessed + 1, e.entries, e.notifications⟩
    | RecordOutcome.notified entry =>
      (FilterRecords slackEnabled evt rs).map fun e =>
        ⟨e.recordsProcessed + 1, entry :: e.entries,
          if slackEnabled then entry :: e.notifications else e.notifications⟩

/-- `fetchLogFromS3` (source lines 291–310), parameterized by the external
S3 client.  Keys containing a CloudTrail-digest or Config marker segment are
never fetched: the function returns `(nil, nil)`, modelled `ok none`. -/
def fetchLogFromS3 {α : Type} (getObject : String → String → Except String α)
    (s3Bucket s3Object : String) : Except String (Option α) :=
  if goContains s3Object "/CloudTrail-Digest/" || goContains s3Object "/Config/" then
    Except.ok none
  else
    match getObject s3Bucket s3Object with
    | Except.error e => Except.error ("AWS Error: " ++ e)
    | Except.ok obj => Except.ok (some obj)

/-- `Stream` (source lines 262–289), parameterized by the S3 client and by
`readLogFile` (gzip + JSON decoding, external libraries).  A nil object from
`fetchLogFromS3` returns success immediately with no effects.  Errors are
wrapped with the object key; a record-level panic is surfaced as an error
string (in Go it crashes the invocation). -/
def Stream {α : Type} (getObject : String → String → Except String α)
    (readLogFile : α → Except String (List JObj)) (slackEnabled : Bool)
    (evt : S3Meta) : Except String StreamEffects :=
  match fetchLogFromS3 getObject evt.bucketName evt.objectKey with
  | Except.error e => Except.error (evt.objectKey ++ ": " ++ e)
  | Except.ok none => Except.ok ⟨0, [], []⟩
  | Except.ok (some obj) =>
    match readLogFile obj with
    | Except.error e => Except.error (evt.objectKey ++ ": " ++ e)
    | Except.ok logFile =>
      match FilterRecords slackEnabled evt logFile with
      | Except.error _ => Except.error "panic: interface conversion"
      | Except.ok effects => Except.ok effects

/-! ## Concrete inputs used by witnesses and counterexamples -/

/-- A fixed S3 event metadata value. -/
def evt0 : S3Meta :=
  ⟨"example-bucket", "AWSLogs/111122223333/CloudTrail/us-east-1/log.json.gz", "us-east-1"⟩

/-- A benign record that reaches the notify tail: a non-suppressed event
name, no user agent. -/
def okRec : JObj :=
  [("userIdentity", JVal.obj [("principalId", JVal.str "AIDAEXAMPLE"),
      ("accountId", JVal.str "111122223333")]),
   ("eventName", JVal.str "CreateUser"),
   ("eventTime", JVal.str "2020-01-01T00:00:00Z"),
   ("eventSource", JVal.str "iam.amazonaws.com"),
   ("eventID", JVal.str "e-ok"),
   ("awsRegion", JVal.str "us-east-1")]

/-- A record suppressed by Stage A (internal invoker) — its event name
would otherwise reach the notify tail. -/
def c1rec : JObj :=
  [("userIdentity", JVal.obj [("invokedBy", JVal.str "AWS Internal")]),
   ("eventName", JVal.str "DeleteBucket")]

/-- A record with no `eventName` key at all (and a non-internal identity). -/
def c2rec : JObj :=
  [("userIdentity", JVal.obj [("principalId", JVal.str "AIDAEXAMPLE")])]

/-- Internal invoker and no `eventName` at all. -/
def c3rec : JObj :=
  [("userIdentity", JVal.obj [("invokedBy", JVal.str "AWS Internal")])]

/-- A notify-path record whose `principalId` holds two colons. -/
def c4rec : JObj :=
  [("userIdentity", JVal.obj [("principalId", JVal.str "a:b:c")]),
   ("eventName", JVal.str "DeleteBucket")]

/-- The entry the filter emits for `c4rec`. -/
def c4entry : LogEntry := mkEntry evt0 c4rec (asObj (jlookup c4rec "userIdentity"))

/-! ## Helper lemmas -/

/-- Whether an outcome is a notify verdict. -/
def isNotifiedB : RecordOutcome → Bool
  | RecordOutcome.notified _ => true
  | _ => false

/-- The entry carried by a notify outcome is exactly the structured log
entry built from the record and its (asserted) `userIdentity` map. -/
theorem processRecord_notified_eq (evt : S3Meta) (r : JObj) (entry : LogEntry)
    (h : processRecord evt r = RecordOutcome.notified entry) :
    entry = mkEntry evt r (asObj (jlookup r "userIdentity")) := by
  unfold processRecord at h
  split at h
  · exact absurd h (by simp)
  · split at h
    · split at h
      · exact absurd h (by simp)
      · unfold stageCOutcome at h
        split at h <;> simp_all
    · exact absurd h (by simp)

/-! ## C1 — logging and the filter verdict -/

/-- C1 (counterexample): the claim says a structured log entry is emitted
for every processed record regardless of verdict.  But `c1rec` is processed
(one loop iteration, verdict Suppress via Stage A) and `FilterRecords` emits
zero log entries: the `continue` statements skip the `log.WithFields` call,
so logging is gated by the filter. -/
theorem c1_counterexample :
    processRecord evt0 c1rec = RecordOutcome.suppressed ∧
    FilterRecords true evt0 [c1rec] = Except.ok ⟨1, [], []⟩ :=
  ⟨rfl, rfl⟩

/-- C1 (amended): the structured log entries emitted by a `FilterRecords`
run are exactly those of the records whose verdict is Notify, in file
order; suppressed records emit no log entry, while every record of the
batch is iterated. -/
theorem c1_entries_exactly_notify (slackEnabled : Bool) (evt : S3Meta)
    (records : List JObj) (effects : StreamEffects)
    (h : FilterRecords slackEnabled evt records = Except.ok effects) :
    effects.recordsProcessed = records.length ∧
    effects.entries =
      (records.filter fun r => isNotifiedB (processRecord evt r)).map
        fun r => mkEntry evt r (asObj (jlookup r "userIdentity")) := by
  induction records generalizing effects with
  | nil =>
    have he : (⟨0, [], []⟩ : StreamEffects) = effects := by
      simpa [FilterRecords] using h
    subst he
    simp
  | cons r rs ih =>
    unfold FilterRecords at h
    cases hpr : processRecord evt r with
    | crash => rw [hpr] at h; exact absurd h (by simp)
    | suppressed =>
      rw [hpr] at h
      cases hrec : FilterRecords slackEnabled evt rs with
      | error e => rw [hrec] at h; simp [Except.map] at h
      | ok e =>
        rw [hrec] at h
        simp only [Except.map, Except.ok.injEq] at h
        obtain ⟨h1, h2⟩ := ih e hrec
        subst h
        simp [List.filter_cons, hpr, isNotifiedB, h1, h2]
    | notified entry =>
      rw [hpr] at h
      cases hrec : FilterRecords slackEnabled evt rs with
      | error e => rw [hrec] at h; simp [Except.map] at h
      | ok e =>
        rw [hrec] at h
        simp only [Except.map, Except.ok.injEq] at h
        obtain ⟨h1, h2⟩ := ih e hrec
        subst h
        have hent := processRecord_notified_eq evt r entry hpr
        simp [List.filter_cons, hpr, isNotifiedB, h1, h2, hent]

/-- C1 (witness): the amended theorem at a concrete two-record batch — one
notify record, one Stage-A-suppressed record — whose run is evaluated
concretely. -/
theorem c1_witness :
    (⟨2, [mkEntry evt0 okRec (asObj (jlookup okRec "userIdentity"))],
        [mkEntry evt0 okRec (asObj (jlookup okRec "userIdentity"))]⟩ :
      StreamEffects).recordsProcessed = [okRec, c1rec].length ∧
    (⟨2, [mkEntry evt0 okRec (asObj (jlookup okRec "userIdentity"))],
        [mkEntry evt0 okRec (asObj (jlookup okRec "userIdentity"))]⟩ :
      StreamEffects).entries =
      ([okRec, c1rec].filter fun r => isNotifiedB (processRecord evt0 r)).map
        fun r => mkEntry evt0 r (asObj (jlookup r "userIdentity")) :=
  c1_entries_exactly_notify true evt0 [okRec, c1rec] _ rfl

/-! ## C2 — absent or non-string `eventName` -/

/-- C2 (code bug): the claim (and the spec's own invariant) says an absent
or non-string `eventName` must not crash the engine.  But the source uses
the single-value type assertion `record["eventName"].(string)`, which
panics on `c2rec` (no `eventName` key): the record crashes the run and the
rest of the batch (`okRec`) is never processed. -/
theorem c2_crash_on_missing_eventName :
    processRecord evt0 c2rec = RecordOutcome.crash ∧
    FilterRecords true evt0 [c2rec, okRec] = Except.error () :=
  ⟨rfl, rfl⟩

/-! ## C3 — Stage A internal-invoker exclusion -/

/-- C3: any record whose `userIdentity.invokedBy` equals "AWS Internal" is
suppressed, whatever the rest of the record holds — in particular the
`eventName` field is never consulted (the check precedes the event-name
type assertion and every other stage). -/
theorem c3_internal_invoker (evt : S3Meta) (record : JObj)
    (h : jvalIsStr (jlookup (asObj (jlookup record "userIdentity")) "invokedBy")
        "AWS Internal" = true) :
    processRecord evt record = RecordOutcome.suppressed := by
  unfold processRecord
  rw [if_pos h]

/-- C3 (witness): `c3rec` carries the internal sentinel and no `eventName`
at all; it is suppressed rather than crashing, so Stage A indeed runs
first. -/
theorem c3_witness :
    jvalIsStr (jlookup (asObj (jlookup c3rec "userIdentity")) "invokedBy")
        "AWS Internal" = true ∧
    processRecord evt0 c3rec = RecordOutcome.suppressed :=
  ⟨rfl, c3_internal_invoker evt0 c3rec rfl⟩

/-! ## C4 — identity normalization -/

/-- C4 (counterexample): the claim says a `principalId` containing `:`
yields "the substring after the first `:`".  For `principalId = "a:b:c"`
that substring is `"b:c"`, but the code computes
`strings.Split(name, ":")[1] = "b"` — the segment between the first and
second colon. -/
theorem c4_counterexample :
    processRecord evt0 c4rec = RecordOutcome.notified c4entry ∧
    c4entry.user_name = "b" ∧ ("b" : String) ≠ "b:c" :=
  ⟨rfl, rfl, by decide⟩

/-- The normalization rule as amended: the string form of `principalId`;
if it contains a colon, the second colon-separated field (the segment
between the first and second colon); a present non-null `userName`
overrides everything. -/
def specActorName (uid : JObj) : String :=
  if jIsNonNil (jlookup uid "userName") then goFmtSOpt (jlookup uid "userName")
  else
    let p := goFmtSOpt (jlookup uid "principalId")
    if p.data.contains ':' then String.mk ((splitCols p.data).getD 1 []) else p

/-- The code's normalization agrees with the amended rule on every
identity map. -/
theorem actorName_eq_spec (uid : JObj) : actorName uid = specActorName uid := by
  unfold actorName specActorName
  by_cases h : jIsNonNil (jlookup uid "userName") = true <;> simp [h]

/-- C4 (amended): on every record reaching the notify path, the emitted
actor name follows the amended rule (second colon-separated field of the
string form of `principalId`; `userName` overrides), and the claim's two
concrete examples hold as stated. -/
theorem c4_amended (evt : S3Meta) (record : JObj) (entry : LogEntry)
    (h : processRecord evt record = RecordOutcome.notified entry) :
    entry.user_name = specActorName (asObj (jlookup record "userIdentity")) ∧
    specActorName [("principalId", JVal.str "AROAEXAMPLE:session-bob")] = "session-bob" ∧
    specActorName [("principalId", JVal.str "AROAEXAMPLE:session-bob"),
        ("userName", JVal.str "alice")] = "alice" := by
  refine ⟨?_, rfl, rfl⟩
  rw [processRecord_notified_eq evt record entry h]
  exact actorName_eq_spec (asObj (jlookup record "userIdentity"))

/-- C4 (witness): the amended theorem applied to the concrete notify-path
record `c4rec`. -/
theorem c4_witness :
    c4entry.user_name = specActorName (asObj (jlookup c4rec "userIdentity")) ∧
    specActorName [("principalId", JVal.str "AROAEXAMPLE:session-bob")] = "session-bob" ∧
    specActorName [("principalId", JVal.str "AROAEXAMPLE:session-bob"),
        ("userName", JVal.str "alice")] = "alice" :=
  c4_amended evt0 c4rec c4entry rfl

/-! ## C5 — the title-cased / exact-case prefix asymmetry of Stage B -/

/-- Skipping one rule of a suppress chain: if the rest of the chain
suppresses, the chain suppresses. -/
theorem ite_chain_tail (c : Prop) [Decidable c] {b : Bool} (h : b = true) :
    (if c then true else b) = true := by
  by_cases hc : c <;> simp [hc, h]

/-- Hitting one rule of a suppress chain. -/
theorem ite_chain_here (c : Prop) [Decidable c] (b : Bool) (h : c) :
    (if c then true else b) = true := by
  rw [if_pos h]

theorem stageB_of_get (record uid : JObj) (en : String)
    (h : goHasPre (goTitle en) "Get" = true) : stageB record uid en = true := by
  unfold stageB; exact ite_chain_here _ _ h

theorem stageB_of_list (record uid : JObj) (en : String)
    (h : goHasPre (goTitle en) "List" = true) : stageB record uid en = true := by
  unfold stageB; iterate 1 apply ite_chain_tail
  exact ite_chain_here _ _ h

theorem stageB_of_view (record uid : JObj) (en : String)
    (h : goHasPre (goTitle en) "View" = true) : stageB record uid en = true := by
  unfold stageB; iterate 2 apply ite_chain_tail
  exact ite_chain_here _ _ h

theorem stageB_of_head (record uid : JObj) (en : String)
    (h : goHasPre en "Head" = true) : stageB record uid en = true := by
  unfold stageB; iterate 3 apply ite_chain_tail
  exact ite_chain_here _ _ h

theorem stageB_of_describe (record uid : JObj) (en : String)
    (h : goHasPre en "Describe" = true) : stageB record uid en = true := by
  unfold stageB; iterate 4 apply ite_chain_tail
  exact ite_chain_here _ _ h

theorem stageB_of_test (record uid : JObj) (en : String)
    (h : goHasPre en "Test" = true) : stageB record uid en = true := by
  unfold stageB; iterate 5 apply ite_chain_tail
  exact ite_chain_here _ _ h

theorem stageB_of_download (record uid : JObj) (en : String)
    (h : goHasPre en "Download" = true) : stageB record uid en = true := by
  unfold stageB; iterate 6 apply ite_chain_tail
  exact ite_chain_here _ _ h

theorem stageB_of_report (record uid : JObj) (en : String)
    (h : goHasPre en "Report" = true) : stageB record uid en = true := by
  unfold stageB; iterate 7 apply ite_chain_tail
  exact ite_chain_here _ _ h

theorem stageB_of_poll (record uid : JObj) (en : String)
    (h : goHasPre en "Poll" = true) : stageB record uid en = true := by
  unfold stageB; iterate 8 apply ite_chain_tail
  exact ite_chain_here _ _ h

theorem stageB_of_verify (record uid : JObj) (en : String)
    (h : goHasPre en "Verify" = true) : stageB record uid en = true := by
  unfold stageB; iterate 9 apply ite_chain_tail
  exact ite_chain_here _ _ h

theorem stageB_of_skip (record uid : JObj) (en : String)
    (h : goHasPre en "Skip" = true) : stageB record uid en = true := by
  unfold stageB; iterate 10 apply ite_chain_tail
  exact ite_chain_here _ _ h

theorem stageB_of_count (record uid : JObj) (en : String)
    (h : goHasPre en "Count" = true) : stageB record uid en = true := by
  unfold stageB; iterate 11 apply ite_chain_tail
  exact ite_chain_here _ _ h

theorem stageB_of_detect (record uid : JObj) (en : String)
    (h : goHasPre en "Detect" = true) : stageB record uid en = true := by
  unfold stageB; iterate 12 apply ite_chain_tail
  exact ite_chain_here _ _ h

theorem stageB_of_lookup (record uid : JObj) (en : String)
    (h : goHasPre en "Lookup" = true) : stageB record uid en = true := by
  unfold stageB; iterate 13 apply ite_chain_tail
  exact ite_chain_here _ _ h

theorem stageB_of_startQuery (record uid : JObj) (en : String)
    (h : goHasPre en "StartQuery" = true) : stageB record uid en = true := by
  unfold stageB; iterate 22 apply ite_chain_tail
  exact ite_chain_here _ _ h

theorem stageB_of_stopQuery (record uid : JObj) (en : String)
    (h : goHasPre en "StopQuery" = true) : stageB record uid en = true := by
  unfold stageB; iterate 23 apply ite_chain_tail
  exact ite_chain_here _ _ h

theorem stageB_of_cancelQuery (record uid : JObj) (en : String)
    (h : goHasPre en "CancelQuery" = true) : stageB record uid en = true := by
  unfold stageB; iterate 24 apply ite_chain_tail
  exact ite_chain_here _ _ h

theorem stageB_of_batchGet (record uid : JObj) (en : String)
    (h : goHasPre en "BatchGet" = true) : stageB record uid en = true := by
  unfold stageB; iterate 25 apply ite_chain_tail
  exact ite_chain_here _ _ h

theorem stageB_of_search (record uid : JObj) (en : String)
    (h : goHasPre en "Search" = true) : stageB record uid en = true := by
  unfold stageB; iterate 26 apply ite_chain_tail
  exact ite_chain_here _ _ h

/-- C5: the read/list/view group is tested against the title-cased event
name (so the all-lower-case "getFoo" is suppressed), while every other
prefix rule — Head, Describe, Test, Download, Report, Poll, Verify, Skip,
Count, Detect, Lookup, StartQuery, StopQuery, CancelQuery, BatchGet,
Search — is tested with exact case: for each of the sixteen, the
lower-case-initial variant ("headFoo", "describeFoo", …) matches no
Stage B rule at all, which would be false were that prefix also tested
after title-casing. -/
theorem c5_title_case_asymmetry (record uid : JObj) (en : String) :
    (goHasPre (goTitle en) "Get" = true → stageB record uid en = true) ∧
    (goHasPre (goTitle en) "List" = true → stageB record uid en = true) ∧
    (goHasPre (goTitle en) "View" = true → stageB record uid en = true) ∧
    (goHasPre en "Head" = true → stageB record uid en = true) ∧
    (goHasPre en "Describe" = true → stageB record uid en = true) ∧
    (goHasPre en "Test" = true → stageB record uid en = true) ∧
    (goHasPre en "Download" = true → stageB record uid en = true) ∧
    (goHasPre en "Report" = true → stageB record uid en = true) ∧
    (goHasPre en "Poll" = true → stageB record uid en = true) ∧
    (goHasPre en "Verify" = true → stageB record uid en = true) ∧
    (goHasPre en "Skip" = true → stageB record uid en = true) ∧
    (goHasPre en "Count" = true → stageB record uid en = true) ∧
    (goHasPre en "Detect" = true → stageB record uid en = true) ∧
    (goHasPre en "Lookup" = true → stageB record uid en = true) ∧
    (goHasPre en "StartQuery" = true → stageB record uid en = true) ∧
    (goHasPre en "StopQuery" = true → stageB record uid en = true) ∧
    (goHasPre en "CancelQuery" = true → stageB record uid en = true) ∧
    (goHasPre en "BatchGet" = true → stageB record uid en = true) ∧
    (goHasPre en "Search" = true → stageB record uid en = true) ∧
    stageB record uid "getFoo" = true ∧
    stageB record uid "headFoo" = false ∧
    stageB record uid "describeFoo" = false ∧
    stageB record uid "testFoo" = false ∧
    stageB record uid "downloadFoo" = false ∧
    stageB record uid "reportFoo" = false ∧
    stageB record uid "pollFoo" = false ∧
    stageB record uid "verifyFoo" = false ∧
    stageB record uid "skipFoo" = false ∧
    stageB record uid "countFoo" = false ∧
    stageB record uid "detectFoo" = false ∧
    stageB record uid "lookupFoo" = false ∧
    stageB record uid "startQueryFoo" = false ∧
    stageB record uid "stopQueryFoo" = false ∧
    stageB record uid "cancelQueryFoo" = false ∧
    stageB record uid "batchGetFoo" = false ∧
    stageB record uid "searchFoo" = false :=
  ⟨stageB_of_get record uid en, stageB_of_list record uid en,
   stageB_of_view record uid en, stageB_of_head record uid en,
   stageB_of_describe record uid en, stageB_of_test record uid en,
   stageB_of_download record uid en, stageB_of_report record uid en,
   stageB_of_poll record uid en, stageB_of_verify record uid en,
   stageB_of_skip record uid en, stageB_of_count record uid en,
   stageB_of_detect record uid en, stageB_of_lookup record uid en,
   stageB_of_startQuery record uid en, stageB_of_stopQuery record uid en,
   stageB_of_cancelQuery record uid en, stageB_of_batchGet record uid en,
   stageB_of_search record uid en,
   stageB_of_get record uid "getFoo" rfl,
   rfl, rfl, rfl, rfl, rfl, rfl, rfl, rfl,
   rfl, rfl, rfl, rfl, rfl, rfl, rfl, rfl⟩

/-- C5 (witness): the lower-case "getFoo" is suppressed, the exact-case
"HeadObject" is suppressed, and the lower-case variants "headFoo" and
"describeFoo" match no Stage B rule, all on a concrete (empty) record. -/
theorem c5_witness :
    stageB [] [] "getFoo" = true ∧
    stageB [] [] "HeadObject" = true ∧
    stageB [] [] "headFoo" = false ∧
    stageB [] [] "describeFoo" = false :=
  ⟨(c5_title_case_asymmetry [] [] "getFoo").1 rfl,
   (c5_title_case_asymmetry [] [] "HeadObject").2.2.2.1 rfl,
   (c5_title_case_asymmetry [] [] "irrelevant").2.2.2.2.2.2.2.2.2.2.2.2.2.2.2.2.2.2.2.2.1,
   (c5_title_case_asymmetry [] [] "irrelevant").2.2.2.2.2.2.2.2.2.2.2.2.2.2.2.2.2.2.2.2.2.1⟩

/-! ## C6 — conditional suppression of PutQueryDefinition -/

/-- Stage B maps `PutQueryDefinition` to its event-source sub-predicate:
no earlier rule matches this name. -/
theorem stageB_putQueryDefinition (record uid : JObj) :
    stageB record uid "PutQueryDefinition" =
      jvalIsStr (jlookup record "eventSource") "logs.amazonaws.com" := rfl

/-- C6: for a record with event name `PutQueryDefinition` (not already
excluded by Stage A), suppression at Stage B happens exactly when
`eventSource` is `logs.amazonaws.com`; any other event source falls
through to the Stage C user-agent check. -/
theorem c6_put_query_definition (evt : S3Meta) (record : JObj)
    (hA : jvalIsStr (jlookup (asObj (jlookup record "userIdentity")) "invokedBy")
        "AWS Internal" = false)
    (hen : jlookup record "eventName" = some (JVal.str "PutQueryDefinition")) :
    stageB record (asObj (jlookup record "userIdentity")) "PutQueryDefinition" =
      jvalIsStr (jlookup record "eventSource") "logs.amazonaws.com" ∧
    (jvalIsStr (jlookup record "eventSource") "logs.amazonaws.com" = true →
      processRecord evt record = RecordOutcome.suppressed) ∧
    (jvalIsStr (jlookup record "eventSource") "logs.amazonaws.com" = false →
      processRecord evt record =
        stageCOutcome evt record (asObj (jlookup record "userIdentity"))) := by
  refine ⟨rfl, ?_, ?_⟩ <;> intro hS <;>
    simp [processRecord, hA, hen, stageB_putQueryDefinition, hS]

/-- `PutQueryDefinition` against the CloudWatch Logs event source. -/
def c6recA : JObj :=
  [("eventName", JVal.str "PutQueryDefinition"),
   ("eventSource", JVal.str "logs.amazonaws.com")]

/-- `PutQueryDefinition` against any other event source. -/
def c6recB : JObj :=
  [("eventName", JVal.str "PutQueryDefinition"),
   ("eventSource", JVal.str "other.amazonaws.com")]

/-- C6 (witness): the two concrete behaviours. -/
theorem c6_witness :
    processRecord evt0 c6recA = RecordOutcome.suppressed ∧
    processRecord evt0 c6recB =
      stageCOutcome evt0 c6recB (asObj (jlookup c6recB "userIdentity")) :=
  ⟨(c6_put_query_definition evt0 c6recA rfl rfl).2.1 rfl,
   (c6_put_query_definition evt0 c6recB rfl rfl).2.2 rfl⟩

/-! ## C7 — conditional suppression of AssumeRole -/

/-- Stage B maps `AssumeRole` to its user-agent/invoker sub-predicate:
no earlier rule matches this name (in particular the exact name
`AssumeRoleWithWebIdentity` does not). -/
theorem stageB_assumeRole (record uid : JObj) :
    stageB record uid "AssumeRole" = assumeRoleTrusted record uid := rfl

/-- C7: for a record with event name `AssumeRole` (not already excluded by
Stage A), suppression at Stage B happens exactly when the user agent is
`Coral/Netty4` and `userIdentity.invokedBy` is one of the four trusted
service principals (`assumeRoleTrusted`); otherwise the record falls
through to the Stage C user-agent check. -/
theorem c7_assume_role (evt : S3Meta) (record : JObj)
    (hA : jvalIsStr (jlookup (asObj (jlookup record "userIdentity")) "invokedBy")
        "AWS Internal" = false)
    (hen : jlookup record "eventName" = some (JVal.str "AssumeRole")) :
    stageB record (asObj (jlookup record "userIdentity")) "AssumeRole" =
      assumeRoleTrusted record (asObj (jlookup record "userIdentity")) ∧
    (assumeRoleTrusted record (asObj (jlookup record "userIdentity")) = true →
      processRecord evt record = RecordOutcome.suppressed) ∧
    (assumeRoleTrusted record (asObj (jlookup record "userIdentity")) = false →
      processRecord evt record =
        stageCOutcome evt record (asObj (jlookup record "userIdentity"))) := by
  refine ⟨rfl, ?_, ?_⟩ <;> intro hS <;>
    simp [processRecord, hA, hen, stageB_assumeRole, hS]

/-- `AssumeRole` by the internal SDK signature from a trusted service. -/
def c7recA : JObj :=
  [("eventName", JVal.str "AssumeRole"),
   ("userAgent", JVal.str "Coral/Netty4"),
   ("userIdentity", JVal.obj [("invokedBy", JVal.str "ec2.amazonaws.com")])]

/-- `AssumeRole` by the internal SDK signature from an untrusted invoker. -/
def c7recB : JObj :=
  [("eventName", JVal.str "AssumeRole"),
   ("userAgent", JVal.str "Coral/Netty4"),
   ("userIdentity", JVal.obj [("invokedBy", JVal.str "some-other.amazonaws.com")])]

/-- C7 (witness): the trusted invoker is suppressed; the untrusted one
falls through to Stage C. -/
theorem c7_witness :
    processRecord evt0 c7recA = RecordOutcome.suppressed ∧
    processRecord evt0 c7recB =
      stageCOutcome evt0 c7recB (asObj (jlookup c7recB "userIdentity")) :=
  ⟨(c7_assume_role evt0 c7recA rfl rfl).2.1 rfl,
   (c7_assume_role evt0 c7recB rfl rfl).2.2 rfl⟩

/-! ## C8 — the Stage C user-agent allow-list -/

/-- C8: a record that reaches Stage C (Stage A and Stage B both declined):
an absent `userAgent` proceeds to Notify; a present string agent matching
no allow-list entry is suppressed; a present string agent matching the
allow-list proceeds to Notify; and the sample agent "curl/7.64" matches
nothing in the allow-list. -/
theorem c8_stage_c (evt : S3Meta) (record : JObj) (en : String)
    (hA : jvalIsStr (jlookup (asObj (jlookup record "userIdentity")) "invokedBy")
        "AWS Internal" = false)
    (hen : jlookup record "eventName" = some (JVal.str en))
    (hB : stageB record (asObj (jlookup record "userIdentity")) en = false) :
    (jlookup record "userAgent" = none →
      processRecord evt record =
        RecordOutcome.notified (mkEntry evt record (asObj (jlookup record "userIdentity")))) ∧
    (∀ ua, jlookup record "userAgent" = some (JVal.str ua) →
      userAgentAllowed ua = false →
      processRecord evt record = RecordOutcome.suppressed) ∧
    (∀ ua, jlookup record "userAgent" = some (JVal.str ua) →
      userAgentAllowed ua = true →
      processRecord evt record =
        RecordOutcome.notified (mkEntry evt record (asObj (jlookup record "userIdentity")))) ∧
    userAgentAllowed "curl/7.64" = false := by
  refine ⟨?_, ?_, ?_, rfl⟩
  · intro hua
    simp [processRecord, hA, hen, hB, stageCOutcome, stageC, hua]
  · intro ua hua hAllow
    simp [processRecord, hA, hen, hB, stageCOutcome, stageC, hua, hAllow]
  · intro ua hua hAllow
    simp [processRecord, hA, hen, hB, stageCOutcome, stageC, hua, hAllow]

/-- A notify-path record whose user agent matches nothing in the
allow-list. -/
def c8rec : JObj :=
  [("eventName", JVal.str "CreateUser"),
   ("userAgent", JVal.str "curl/7.64")]

/-- C8 (witness): with no user agent, `okRec` is notified; with
`userAgent = "curl/7.64"`, the otherwise identical record is suppressed at
Stage C. -/
theorem c8_witness :
    processRecord evt0 okRec =
      RecordOutcome.notified (mkEntry evt0 okRec (asObj (jlookup okRec "userIdentity"))) ∧
    processRecord evt0 c8rec = RecordOutcome.suppressed :=
  ⟨(c8_stage_c evt0 okRec "CreateUser" rfl rfl rfl).1 rfl,
   (c8_stage_c evt0 c8rec "CreateUser" rfl rfl rfl).2.1 "curl/7.64" rfl rfl⟩

/-! ## C9 — digest/config keys are never fetched -/

/-- C9: whatever the S3 client and decoder would do, a storage key
containing a `/CloudTrail-Digest/` or `/Config/` segment short-circuits
`Stream`: no fetch, no records, no log entries, no notifications, and a
nil error. -/
theorem c9_digest_never_fetched {α : Type}
    (getObject : String → String → Except String α)
    (readLogFile : α → Except String (List JObj))
    (slackEnabled : Bool) (evt : S3Meta)
    (h : (goContains evt.objectKey "/CloudTrail-Digest/" ||
          goContains evt.objectKey "/Config/") = true) :
    Stream getObject readLogFile slackEnabled evt = Except.ok ⟨0, [], []⟩ := by
  unfold Stream fetchLogFromS3
  rw [if_pos h]

/-- An event whose object key is a CloudTrail digest path. -/
def digestEvt : S3Meta :=
  ⟨"example-bucket",
   "AWSLogs/111122223333/CloudTrail-Digest/us-east-1/digest.json.gz",
   "us-east-1"⟩

/-- C9 (witness): with an S3 client and a decoder that fail on any use,
the digest key still yields a clean empty run — so neither collaborator is
ever consulted. -/
theorem c9_witness :
    (goContains digestEvt.objectKey "/CloudTrail-Digest/" ||
     goContains digestEvt.objectKey "/Config/") = true ∧
    Stream (fun _ _ => (Except.error "unreachable fetch" : Except String Unit))
      (fun _ => (Except.error "unreachable decode" : Except String (List JObj)))
      true digestEvt = Except.ok ⟨0, [], []⟩ :=
  ⟨rfl, c9_digest_never_fetched _ _ true digestEvt rfl⟩

/-! ## C10 — the allow-list regexes are unanchored substring patterns -/

/-- A starred element can always match zero characters. -/
theorem starLoop_of_k (t : RTok) (k : List Char → Bool) (l : List Char)
    (h : k l = true) : starLoop t k l = true := by
  cases l <;> simp [starLoop, h]

/-- The empty token list matches everywhere. -/
theorem reMatch_nil (cs : List Char) : reMatch [] cs = true := rfl

/-- The star-headed equation of `reMatch`. -/
theorem reMatch_star (t : RTok) (ts : List RTok) (ds : List Char) :
    reMatch (RTok.star t :: ts) ds = starLoop t (reMatch ts) ds := rfl

/-- Literal tokens consume exactly their own characters. -/
theorem reMatch_lits (w : List Char) (ts : List RTok) (cs : List Char) :
    reMatch (w.map RTok.lit ++ ts) (w ++ cs) = reMatch ts cs := by
  induction w with
  | nil => simp
  | cons a w ih => simp [reMatch, ih]

/-- A dot consumes one non-newline character. -/
theorem reMatch_dot {ts : List RTok} {cs : List Char} (c : Char)
    (hc : (c != '\n') = true) (h : reMatch ts cs = true) :
    reMatch (RTok.dot :: ts) (c :: cs) = true := by
  simp [reMatch, hc, h]

/-- A starred dot can consume any newline-free run before handing over to
the continuation. -/
theorem starLoop_dot_append (k : List Char → Bool) (mid : List Char)
    (hmid : mid.all (fun c => c != '\n') = true) (cs : List Char)
    (h : k cs = true) : starLoop RTok.dot k (mid ++ cs) = true := by
  induction mid with
  | nil => simpa using starLoop_of_k RTok.dot k cs h
  | cons m mid ih =>
    simp only [List.all_cons, Bool.and_eq_true] at hmid
    simp only [List.cons_append, starLoop, tokOne, Bool.or_eq_true, Bool.and_eq_true]
    exact Or.inr ⟨hmid.1, ih hmid.2⟩

/-- A match at the start of the input is found by the unanchored search. -/
theorem reSearch_of_reMatch {ts : List RTok} {cs : List Char}
    (h : reMatch ts cs = true) : reSearch ts cs = true := by
  cases cs <;> simp [reSearch, h]

/-- The unanchored search ignores any characters before the match. -/
theorem reSearch_append_left (ts : List RTok) (pre cs : List Char)
    (h : reSearch ts cs = true) : reSearch ts (pre ++ cs) = true := by
  induction pre with
  | nil => simpa using h
  | cons p pre ih =>
    simp only [List.cons_append, reSearch, Bool.or_eq_true]
    exact Or.inr ih

/-- A literal run followed by a trailing starred element matches wherever
the literal run is an initial segment (the star may match zero times). -/
theorem startsL_reMatch_litsStar (t : RTok) :
    ∀ (w cs : List Char), startsL w cs = true →
      reMatch (w.map RTok.lit ++ [RTok.star t]) cs = true := by
  intro w
  induction w with
  | nil =>
    intro cs _
    simpa [reMatch_star] using starLoop_of_k t (reMatch []) cs (reMatch_nil cs)
  | cons a w ih =>
    intro cs h
    cases cs with
    | nil => simp [startsL] at h
    | cons b cs' =>
      simp only [startsL, Bool.and_eq_true] at h
      simp [reMatch, h.1, ih cs' h.2]

/-- Lifting `startsL` to `containsL`: a pattern of literals plus a trailing
star is found by the unanchored search whenever the literals occur as a
contiguous segment. -/
theorem containsL_reSearch (t : RTok) (w : List Char) :
    ∀ cs, containsL w cs = true →
      reSearch (w.map RTok.lit ++ [RTok.star t]) cs = true := by
  intro cs
  induction cs with
  | nil =>
    intro h
    exact reSearch_of_reMatch (startsL_reMatch_litsStar t w [] h)
  | cons c cs ih =>
    intro h
    simp only [containsL, Bool.or_eq_true] at h
    rcases h with h | h
    · exact reSearch_of_reMatch (startsL_reMatch_litsStar t w _ h)
    · simp only [reSearch, Bool.or_eq_true]
      exact Or.inr (ih h)

/-- The shape shared by the two domain patterns
(`console.*.amazonaws.com`, `signin.*.amazonaws.com`): literals, starred
dot, dot, literals, dot, literals. -/
theorem reMatch_domain_shape (w1 w2 w3 mid post : List Char) (c1 c2 : Char)
    (hmid : mid.all (fun c => c != '\n') = true)
    (h1 : (c1 != '\n') = true) (h2 : (c2 != '\n') = true) :
    reMatch (w1.map RTok.lit ++ (RTok.star RTok.dot :: (RTok.dot ::
        (w2.map RTok.lit ++ (RTok.dot :: w3.map RTok.lit)))))
      (w1 ++ (mid ++ (c1 :: (w2 ++ (c2 :: (w3 ++ post)))))) = true := by
  have h3 : reMatch (w3.map RTok.lit) (w3 ++ post) = true := by
    have e := reMatch_lits w3 [] post
    simpa [reMatch_nil] using e
  have h2' := reMatch_dot c2 h2 h3
  have h2'' : reMatch (w2.map RTok.lit ++ (RTok.dot :: w3.map RTok.lit))
      (w2 ++ (c2 :: (w3 ++ post))) = true := by
    rw [reMatch_lits]; exact h2'
  have h1' := reMatch_dot c1 h1 h2''
  have hstar : reMatch (RTok.star RTok.dot :: (RTok.dot ::
      (w2.map RTok.lit ++ (RTok.dot :: w3.map RTok.lit))))
      (mid ++ (c1 :: (w2 ++ (c2 :: (w3 ++ post))))) = true := by
    rw [reMatch_star]
    exact starLoop_dot_append _ mid hmid _ h1'
  rw [reMatch_lits]
  exact hstar

/-- Reaching the `console.*.amazonaws.com` case of the allow-list chain
is enough for Stage C to let the agent through. -/
theorem uaAllowed_of_console (ua : String)
    (h : matchString "console.*.amazonaws.com" ua = true) :
    userAgentAllowed ua = true := by
  unfold userAgentAllowed
  iterate 9 apply ite_chain_tail
  exact ite_chain_here _ _ h

/-- Reaching the `signin.*.amazonaws.com` case of the allow-list chain
is enough for Stage C to let the agent through. -/
theorem uaAllowed_of_signin (ua : String)
    (h : matchString "signin.*.amazonaws.com" ua = true) :
    userAgentAllowed ua = true := by
  unfold userAgentAllowed
  iterate 10 apply ite_chain_tail
  exact ite_chain_here _ _ h

/-- Reaching the `aws-internal*` case of the allow-list chain is enough
for Stage C to let the agent through. -/
theorem uaAllowed_of_awsInternal (ua : String)
    (h : matchString "aws-internal*" ua = true) :
    userAgentAllowed ua = true := by
  unfold userAgentAllowed
  iterate 11 apply ite_chain_tail
  exact ite_chain_here _ _ h

/-- C10: the allow-list regexes are unanchored substring patterns, not
globs or full-string matches.  (1) In `aws-internal*` the `*` makes the
final `l` optional/repeatable, so any user agent merely containing
"aws-interna" passes the allow-list.  (2)/(3) `console.*.amazonaws.com`
and `signin.*.amazonaws.com` match whenever the pattern occurs anywhere in
the agent, with each `.` standing for an arbitrary (non-newline)
character. -/
theorem c10_unanchored_regex :
    (∀ ua : String, goContains ua "aws-interna" = true →
      userAgentAllowed ua = true) ∧
    (∀ (pre mid post : List Char) (c1 c2 : Char),
      mid.all (fun c => c != '\n') = true →
      (c1 != '\n') = true → (c2 != '\n') = true →
      userAgentAllowed (String.mk (pre ++ ("console".data ++
        (mid ++ (c1 :: ("amazonaws".data ++ (c2 :: ("com".data ++ post)))))))) = true) ∧
    (∀ (pre mid post : List Char) (c1 c2 : Char),
      mid.all (fun c => c != '\n') = true →
      (c1 != '\n') = true → (c2 != '\n') = true →
      userAgentAllowed (String.mk (pre ++ ("signin".data ++
        (mid ++ (c1 :: ("amazonaws".data ++ (c2 :: ("com".data ++ post)))))))) = true) := by
  refine ⟨?_, ?_, ?_⟩
  · intro ua h
    exact uaAllowed_of_awsInternal ua
      (containsL_reSearch (RTok.lit 'l') ("aws-interna".data) ua.data h)
  · intro pre mid post c1 c2 hmid h1 h2
    exact uaAllowed_of_console _
      (reSearch_append_left _ pre _ (reSearch_of_reMatch
        (reMatch_domain_shape "console".data "amazonaws".data "com".data
          mid post c1 c2 hmid h1 h2)))
  · intro pre mid post c1 c2 hmid h1 h2
    exact uaAllowed_of_signin _
      (reSearch_append_left _ pre _ (reSearch_of_reMatch
        (reMatch_domain_shape "signin".data "amazonaws".data "com".data
          mid post c1 c2 hmid h1 h2)))

/-- C10 (witness): three concrete user agents — one that merely contains
"aws-interna" with trailing junk and no final "l", and two with the
console/signin domain pattern embedded mid-string with arbitrary
characters at the dots. -/
theorem c10_witness :
    userAgentAllowed "xx aws-internaXYZ" = true ∧
    userAgentAllowed (String.mk ("agent ".data ++ ("console".data ++
      ("-foo".data ++ ('X' :: ("amazonaws".data ++ ('Y' :: ("com".data ++ " tail".data)))))))) = true ∧
    userAgentAllowed (String.mk ("agent ".data ++ ("signin".data ++
      ("-bar".data ++ ('P' :: ("amazonaws".data ++ ('Q' :: ("com".data ++ " tail".data)))))))) = true :=
  ⟨c10_unanchored_regex.1 "xx aws-internaXYZ" rfl,
   c10_unanchored_regex.2.1 "agent ".data "-foo".data " tail".data 'X' 'Y' rfl rfl rfl,
   c10_unanchored_regex.2.2 "agent ".data "-bar".data " tail".data 'P' 'Q' rfl rfl rfl⟩

end CloudTrail
